import Mathlib

/-!
Shallow embedding of the EasySQL library (AGM-Studio/EasySQL) used to check the
natural-language specification against the code.  Python runtime values that
flow through the type system are modelled by `Value`; casters are total Lean
functions returning `Except CastErr Value`; SQL text building is modelled by
plain `String` concatenation mirroring the Python f-strings character for
character.
-/

namespace EasySQL

/-- Python runtime values handled by the EasySQL type layer: `None`, ints,
bools, strings and floats (floats carried as rationals; only the literal
constants `0.0` appearing in the registry are ever used by the development). -/
inductive Value where
  | none
  | int (n : Int)
  | bool (b : Bool)
  | str (s : String)
  | float (q : Rat)
deriving DecidableEq, Repr

/-- Python truthiness (`bool(value)`) for the values of `Value`. -/
def pyTruthy : Value → Bool
  | Value.none => false
  | Value.int n => n != 0
  | Value.bool b => b
  | Value.str s => s != ""
  | Value.float q => q != 0

/-- Errors raised by cast bodies in Types.py: `ValueError` (range violations,
bad int literals) and `TypeError`/`NotImplementedError` style failures.  The
library's casters raise no other exception class. -/
inductive CastErr where
  | valueError (msg : String)
  | typeError (msg : String)
deriving DecidableEq, Repr

/-- Decimal digit run to a natural number; fails on a non-digit or on the
empty list (Python `int('')` raises `ValueError`). -/
def digitsToNatAux : List Char → Nat → Option Nat
  | [], acc => Option.some acc
  | c :: rest, acc =>
    if c.isDigit then digitsToNatAux rest (acc * 10 + (c.toNat - 48)) else Option.none

/-- Parse of an optionally signed decimal integer from characters, mirroring
Python `int(str)` on its common inputs (sign plus digits). -/
def parsePyIntChars : List Char → Option Int
  | [] => Option.none
  | c :: rest =>
    if c == '-' then
      match rest with
      | [] => Option.none
      | _ => (digitsToNatAux rest 0).map (fun n => -(n : Int))
    else if c == '+' then
      match rest with
      | [] => Option.none
      | _ => (digitsToNatAux rest 0).map (fun n => (n : Int))
    else (digitsToNatAux (c :: rest) 0).map (fun n => (n : Int))

/-- Whitespace test used by the Python `int()` model (`str.strip`). -/
def isSpaceChar (c : Char) : Bool := c == ' ' || c == '\t' || c == '\n' || c == '\r'

/-- Strip of leading and trailing whitespace from a character list. -/
def trimChars (l : List Char) : List Char :=
  ((l.dropWhile isSpaceChar).reverse.dropWhile isSpaceChar).reverse

/-- Python `int(s)` on a string, raising `ValueError` on a bad literal. -/
def pyIntOfString (s : String) : Except CastErr Int :=
  match parsePyIntChars (trimChars s.data) with
  | Option.some n => Except.ok n
  | Option.none =>
      Except.error (CastErr.valueError ("invalid literal for int() with base 10: " ++ s))

/-- Python `int(value)` conversion as used by the integer cast bodies.
Ints pass through, bools become 0/1, numeric strings are parsed, floats
truncate toward zero, and `None` is a `TypeError` (the casters test for
`None` before calling this). -/
def pyInt : Value → Except CastErr Int
  | Value.none => Except.error (CastErr.typeError "int() argument must not be None")
  | Value.int n => Except.ok n
  | Value.bool b => Except.ok (if b then 1 else 0)
  | Value.str s => pyIntOfString s
  | Value.float q => Except.ok (if q < 0 then -((-q).floor) else q.floor)

/-- Rendering of a float the way Python `str` renders the registry's literal
float constants (`0.0` prints as "0.0"); non-integral rationals never occur
in this development. -/
def floatStr (q : Rat) : String :=
  if q.den == 1 then toString q.num ++ ".0" else toString q

/-- Python `str(value)` for the values of `Value`. -/
def pyStr : Value → String
  | Value.none => "None"
  | Value.int n => toString n
  | Value.bool b => if b then "True" else "False"
  | Value.str s => s
  | Value.float q => floatStr q

/-- Lower and upper bound computed by `_get_int_cast_` in Types.py.  The
source reads: minimum is `-(2 ** (size - 1))` when `unsigned` is true else
`0`; maximum is `2 ** (size - 1) - 1` when `unsigned` is true else
`2 ** size`. -/
def intCastBounds (size : Nat) (unsigned : Bool) : Int × Int :=
  (if unsigned then -(2 ^ (size - 1) : Int) else 0,
   if unsigned then (2 ^ (size - 1) : Int) - 1 else (2 ^ size : Int))

/-- The closure returned by `_get_int_cast_(size, unsigned)` in Types.py:
`None` passes through, otherwise the value is converted with `int()` and
checked against the bounds of `intCastBounds`, raising `ValueError` when
outside them (both ends inclusive, `minimum <= value <= maximum`). -/
def intCast (size : Nat) (unsigned : Bool) : Value → Except CastErr Value
  | Value.none => Except.ok Value.none
  | v =>
    match pyInt v with
    | Except.error e => Except.error e
    | Except.ok n =>
      let lo := (intCastBounds size unsigned).1
      let hi := (intCastBounds size unsigned).2
      if lo ≤ n ∧ n ≤ hi then Except.ok (Value.int n)
      else Except.error (CastErr.valueError
        ("can only accept between " ++ toString lo ++ " and " ++ toString hi ++
         ", but got " ++ toString n))

/-- Cast body `_float_cast` of Types.py: `None` passes through, otherwise
`float(value)`.  String-to-float conversion is never exercised by the
registry constants and is modelled as a `ValueError`. -/
def floatCast : Value → Except CastErr Value
  | Value.none => Except.ok Value.none
  | Value.int n => Except.ok (Value.float (n : Rat))
  | Value.bool b => Except.ok (Value.float (if b then 1 else 0))
  | Value.float q => Except.ok (Value.float q)
  | Value.str s => Except.error (CastErr.valueError ("could not convert string to float: " ++ s))

/-- Cast body `_string_cast` of Types.py: `None` passes through, otherwise
the f-string coercion to text. -/
def stringCast : Value → Except CastErr Value
  | Value.none => Except.ok Value.none
  | v => Except.ok (Value.str (pyStr v))

/-- The `_string_parse` function of Types.py: `None` renders the literal
`null`; anything else is wrapped in single quotes. -/
def stringParseFn : Value → String
  | Value.none => "null"
  | v => "\x27" ++ pyStr v ++ "\x27"

/-- Default parser installed by `SQLType.__init__` in ABC.py when no parser
is supplied: `None` renders `null`, otherwise `str(value)`. -/
def defaultParse : Value → String
  | Value.none => "null"
  | v => pyStr v

/-- Join of strings with a separator (Python `sep.join`). -/
def joinSep (sep : String) : List String → String
  | [] => ""
  | [s] => s
  | s :: rest => s ++ sep ++ joinSep sep rest

/-- Shallow embedding of `ABC.SQLType`.  `casterFn`/`getCasterFn` mirror the
`caster`/`get_caster` keyword pair of `__init__`; `dflt` is the `default`
attribute; `parserFn` is the explicit parser if one was given; `tags` is the
tag list attached by callers (the `tags=['UNSIGNED']` keyword used in
Types.py line 51, read back by `EasyColumn.get_sql`). -/
structure SQLType where
  baseName : String
  args : List Int
  casterFn : Option (Value → Except CastErr Value)
  getCasterFn : Option (List Int → Value → Except CastErr Value)
  dflt : Value
  parserFn : Option (Value → String)
  modifiable : Bool
  tags : List String

/-- Effective caster of a type, following `SQLType.__init__`: the explicit
caster if given, otherwise `get_caster(self)` evaluated on the instance's
own argument list. -/
def SQLType.caster (t : SQLType) : Value → Except CastErr Value :=
  match t.casterFn with
  | Option.some c => c
  | Option.none =>
    match t.getCasterFn with
    | Option.some g => g t.args
    | Option.none => fun _ => Except.error (CastErr.typeError "cast method is not implemented")

/-- The `name` property of `SQLType`: base name, with the comma-joined
argument list in parentheses when arguments are present. -/
def SQLType.name (t : SQLType) : String :=
  if t.args.isEmpty then t.baseName
  else t.baseName ++ "(" ++ joinSep "," (t.args.map toString) ++ ")"

/-- The `cast` method of `SQLType`. -/
def SQLType.cast (t : SQLType) (v : Value) : Except CastErr Value := t.caster v

/-- Application of the type's parser (explicit one, or the default parser). -/
def SQLType.applyParser (t : SQLType) (v : Value) : String :=
  match t.parserFn with
  | Option.some p => p v
  | Option.none => defaultParse v

/-- The `parse` method of `SQLType`: `self._parser(self.cast(value))`; a cast
failure propagates. -/
def SQLType.parse (t : SQLType) (v : Value) : Except CastErr String :=
  (t.cast v).map t.applyParser

/-- Python `__eq__` of `SQLType`: equal names and equal argument lists. -/
def SQLType.pyEq (a b : SQLType) : Bool :=
  a.name == b.name && a.args == b.args

/-- The result of `SQLType.__call__(*args)` for a modifiable type (or an
empty argument list): a fresh instance carrying the new arguments and the
original `_modify_args` (caster, get_caster, default, parser). -/
def SQLType.withArgs (t : SQLType) (as : List Int) : SQLType :=
  { t with args := as }

/-- `SQLType.__call__`: modifiable types (and the no-argument call) return a
fresh instance; otherwise an `SQLTypeException` is raised, modelled as a
`typeError`. -/
def SQLType.callArgs (t : SQLType) (as : List Int) : Except CastErr SQLType :=
  if t.modifiable || as.isEmpty then Except.ok (t.withArgs as)
  else Except.error (CastErr.typeError "this sql type is not accepting new arguments")

/-- The two halves of `Types.IntegerSQLType`: the base type whose caster is
`_get_int_cast_(bit_size)` (the `unsigned=False` branch of the factory) and,
when the `unsigned` flag is passed, the `UNSIGNED` variant whose caster is
`_get_int_cast_(bit_size, True)` tagged `UNSIGNED`. -/
structure IntegerSQLType where
  base : SQLType
  bit_size : Nat
  unsignedVariant : Option SQLType

/-- Constructor of `IntegerSQLType(name, bit_size, default, unsigned)`. -/
def mkIntegerSQLType (nm : String) (bit_size : Nat) (dflt : Value) (unsigned : Bool) :
    IntegerSQLType :=
  { base := { baseName := nm, args := [], casterFn := Option.some (intCast bit_size false),
              getCasterFn := Option.none, dflt := dflt, parserFn := Option.none,
              modifiable := false, tags := [] },
    bit_size := bit_size,
    unsignedVariant :=
      if unsigned then
        Option.some { baseName := nm, args := [], casterFn := Option.some (intCast bit_size true),
                      getCasterFn := Option.none, dflt := dflt, parserFn := Option.none,
                      modifiable := false, tags := ["UNSIGNED"] }
      else Option.none }

/-- The `UNSIGNED` property: the variant when present, else a `TypeError`. -/
def IntegerSQLType.UNSIGNED (t : IntegerSQLType) : Except CastErr SQLType :=
  match t.unsignedVariant with
  | Option.some u => Except.ok u
  | Option.none => Except.error (CastErr.typeError (t.base.name ++ " can not support unsigned"))

/-- Registry constant `INT64 = BIGINT = IntegerSQLType('BIGINT', 64, 0, True)`. -/
def INT64 : IntegerSQLType := mkIntegerSQLType "BIGINT" 64 (Value.int 0) true

/-- Registry constant `INT32 = INT = INTEGER = IntegerSQLType('INT', 32, 0, True)`. -/
def INT32 : IntegerSQLType := mkIntegerSQLType "INT" 32 (Value.int 0) true

/-- Registry constant `INT24 = MEDIUMINT = IntegerSQLType('MEDIUMINT', 24, 0, True)`. -/
def INT24 : IntegerSQLType := mkIntegerSQLType "MEDIUMINT" 24 (Value.int 0) true

/-- Registry constant `INT16 = SMALLINT = IntegerSQLType('SMALLINT', 16, 0, True)`. -/
def INT16 : IntegerSQLType := mkIntegerSQLType "SMALLINT" 16 (Value.int 0) true

/-- Registry constant `INT8 = TINYINT = IntegerSQLType('TINYINT', 8, 0, False)`. -/
def INT8 : IntegerSQLType := mkIntegerSQLType "TINYINT" 8 (Value.int 0) false

/-- Registry constant `BIT`: get_caster recomputes `_get_int_cast_` from the
first argument (`self.args[0]`); modifiable with default argument 1. -/
def BIT : SQLType :=
  { baseName := "BIT", args := [1], casterFn := Option.none,
    getCasterFn := Option.some (fun as => intCast (as.headD 0).toNat false),
    dflt := Value.int 0, parserFn := Option.none, modifiable := true, tags := [] }

/-- Cast body of `BOOL` in Types.py: `None` passes through, anything else is
collapsed to its truthiness. -/
def boolCast : Value → Except CastErr Value
  | Value.none => Except.ok Value.none
  | v => Except.ok (Value.bool (pyTruthy v))

/-- Parser of `BOOL` in Types.py: `'1' if value else '0'` (note that a `None`
input is falsy and therefore renders `0`). -/
def boolParseFn (v : Value) : String := if pyTruthy v then "1" else "0"

/-- Registry constant `BOOL`. -/
def BOOL : SQLType :=
  { baseName := "BIT", args := [1], casterFn := Option.some boolCast,
    getCasterFn := Option.none, dflt := Value.bool false,
    parserFn := Option.some boolParseFn, modifiable := false, tags := [] }

/-- Registry constant `FLOAT`. -/
def FLOAT : SQLType :=
  { baseName := "FLOAT", args := [], casterFn := Option.some floatCast,
    getCasterFn := Option.none, dflt := Value.float 0, parserFn := Option.none,
    modifiable := false, tags := [] }

/-- Registry constant `DOUBLE`. -/
def DOUBLE : SQLType :=
  { baseName := "DOUBLE", args := [12, 6], casterFn := Option.some floatCast,
    getCasterFn := Option.none, dflt := Value.float 0, parserFn := Option.none,
    modifiable := true, tags := [] }

/-- Registry constant `DEC = DECIMAL`. -/
def DEC : SQLType :=
  { baseName := "DECIMAL", args := [12, 6], casterFn := Option.some floatCast,
    getCasterFn := Option.none, dflt := Value.float 0, parserFn := Option.none,
    modifiable := true, tags := [] }

/-- Registry constant `STRING = VARCHAR`. -/
def STRING : SQLType :=
  { baseName := "VARCHAR", args := [255], casterFn := Option.some stringCast,
    getCasterFn := Option.none, dflt := Value.str "", parserFn := Option.some stringParseFn,
    modifiable := true, tags := [] }

/-- Registry constant `CHAR`. -/
def CHAR : SQLType :=
  { baseName := "CHAR", args := [255], casterFn := Option.some stringCast,
    getCasterFn := Option.none, dflt := Value.str "", parserFn := Option.some stringParseFn,
    modifiable := true, tags := [] }

/-- Index of the first occurrence of a character, Python `str.find` style
(`-1` when absent). -/
def pyFindChar (s : String) (c : Char) : Int :=
  match s.data.findIdx? (· == c) with
  | Option.some i => (i : Int)
  | Option.none => -1

/-- Index of the last occurrence of a character, Python `str.rfind` style
(`-1` when absent). -/
def pyRfindChar (s : String) (c : Char) : Int :=
  match s.data.reverse.findIdx? (· == c) with
  | Option.some i => (s.data.length : Int) - 1 - (i : Int)
  | Option.none => -1

/-- Python slice `s[a:b]` with possibly negative indices. -/
def pySlice (s : String) (a b : Int) : String :=
  let l := s.data
  let n : Int := (l.length : Int)
  let norm : Int → Nat := fun i => (if i < 0 then max 0 (n + i) else min i n).toNat
  String.mk ((l.take (norm b)).drop (norm a))

/-- Lowercasing of a string (Python `str.lower` on the ASCII type names
handled here). -/
def pyLower (s : String) : String := String.mk (s.data.map Char.toLower)

/-- Python `str.split(sep=',')`: the empty string yields one empty field. -/
def splitCommaAux : List Char → List Char → List String
  | [], acc => [String.mk acc.reverse]
  | c :: rest, acc =>
    if c == ',' then String.mk acc.reverse :: splitCommaAux rest []
    else splitCommaAux rest (c :: acc)

/-- Split of a string on commas. -/
def splitComma (s : String) : List String := splitCommaAux s.data []

/-- The `type_dict` mapping of Types.py in its insertion order: each registry
constant paired with the lowercase database-reported names it answers to. -/
def typeDict : List (SQLType × List String) :=
  [(INT64.base, ["bigint"]),
   (INT32.base, ["int", "integer"]),
   (INT24.base, ["mediumint"]),
   (INT16.base, ["smallint"]),
   (INT8.base, ["tinyint"]),
   (BIT, ["bit", "bool", "boolean"]),
   (FLOAT, ["float"]),
   (DOUBLE, ["double"]),
   (DEC, ["decimal", "dec"]),
   (STRING, ["varchar"]),
   (CHAR, ["char"])]

/-- Decomposition of a database-reported type string into its lowercased base
name and optional raw argument text, mirroring the two slicing expressions at
the top of `string_to_type` in Types.py. -/
def stripTypeArgs (s : String) : String × Option String :=
  let f := pyFindChar s '('
  ((if f ≥ 0 then pyLower (pySlice s 0 f) else s),
   (if f ≥ 0 then Option.some (pySlice s (f + 1) (pyRfindChar s ')')) else Option.none))

/-- The lookup loop of `string_to_type`: first entry whose alias list holds
the base name wins; the `BIT` key answers `bool`/`boolean` with `BOOL`;
non-modifiable keys and argument-free strings return the key itself;
otherwise the key is re-invoked on the integer-parsed arguments. -/
def lookupType : List (SQLType × List String) → String → Option String →
    Except CastErr (Option SQLType)
  | [], _, _ => Except.ok Option.none
  | (key, aliases) :: rest, base, argsStr =>
    if aliases.contains base then
      if key.pyEq BIT && base != "bit" then Except.ok (Option.some BOOL)
      else if !key.modifiable || argsStr.isNone then Except.ok (Option.some key)
      else
        match argsStr with
        | Option.none => Except.ok (Option.some key)
        | Option.some raw =>
          match (splitComma raw).mapM pyIntOfString with
          | Except.error e => Except.error e
          | Except.ok ints =>
            match key.callArgs ints with
            | Except.error e => Except.error e
            | Except.ok t => Except.ok (Option.some t)
    else lookupType rest base argsStr

/-- The `string_to_type` function of Types.py. -/
def string_to_type (s : String) : Except CastErr (Option SQLType) :=
  let p := stripTypeArgs s
  lookupType typeDict p.1 p.2

/-- Every alias appearing in `type_dict`. -/
def allAliases : List String :=
  ["bigint", "int", "integer", "mediumint", "smallint", "tinyint",
   "bit", "bool", "boolean", "float", "double", "decimal", "dec",
   "varchar", "char"]

/-- Shallow embedding of `Where.Where`: a wrapper around the finalized SQL
boolean-expression string. -/
structure Where where
  value : String
deriving DecidableEq, Repr

/-- The `get_value` method of `Where`. -/
def Where.get_value (w : Where) : String := "WHERE " ++ w.value

/-- The `AND` combinator of `Where`. -/
def Where.AND (a b : Where) : Where := ⟨"(" ++ a.value ++ " AND " ++ b.value ++ ")"⟩

/-- The `OR` combinator of `Where`. -/
def Where.OR (a b : Where) : Where := ⟨"(" ++ a.value ++ " OR " ++ b.value ++ ")"⟩

/-- The `NOT` combinator of `Where`. -/
def Where.NOT (a : Where) : Where := ⟨"NOT " ++ a.value⟩

/-- Constraint tags.  The class `SQLConstraints` is imported by Classes.py and
Constraints.py from ABC.py but absent from the ABC.py in src/.  Modelled from
the spec: a constraint tag is identified by its DDL text, read back through
`.value` by `EasyColumn.get_sql` and constructed from that text in
Constraints.py. -/
structure SQLConstraints where
  value : String
deriving DecidableEq, Repr

/-- Constant `PRIMARY` of Constraints.py. -/
def PRIMARY : SQLConstraints := ⟨"PRIMARY KEY"⟩

/-- Constant `NOT_NULL` of Constraints.py. -/
def NOT_NULL : SQLConstraints := ⟨"NOT NULL"⟩

/-- Constant `AUTO_INCREMENT` of Constraints.py. -/
def AUTO_INCREMENT : SQLConstraints := ⟨"AUTO_INCREMENT"⟩

/-- Constant `UNIQUE` of Constraints.py. -/
def UNIQUE : SQLConstraints := ⟨"UNIQUE"⟩

/-- Shallow embedding of `EasyColumn` (the fields touched by the claims). -/
structure EasyColumn where
  name : String
  sql_type : SQLType
  tags : List SQLConstraints
  dflt : Value

/-- The `EasyColumn.__init__` logic of Classes.py: the stored default is
`default if default else sql_type.default if NOT_NULL in self.tags else None`
(a truthiness test on the supplied default, then the NOT_NULL fallback). -/
def mkEasyColumn (name : String) (t : SQLType) (tags : List SQLConstraints)
    (dflt : Value) : EasyColumn :=
  { name := name, sql_type := t, tags := tags,
    dflt := if pyTruthy dflt then dflt
            else if tags.contains NOT_NULL then t.dflt
            else Value.none }

/-- The `parse` method of `EasyColumn`, delegating to its type. -/
def EasyColumn.parseV (c : EasyColumn) (v : Value) : Except CastErr String :=
  c.sql_type.parse v

/-- Python `__eq__` of `EasyColumn`: equal names and equal (Python-equal)
types. -/
def EasyColumn.pyEq (a b : EasyColumn) : Bool :=
  a.name == b.name && a.sql_type.pyEq b.sql_type

/-- Python repr of a string value, as rendered inside the tuple formatting of
`WhereIsBetween` (single quotes; none of the inputs used here need escapes). -/
def pyReprStr (s : String) : String := "\x27" ++ s ++ "\x27"

/-- The `WhereIsEqual` constructor of Where.py. -/
def WhereIsEqual (c : EasyColumn) (v : Value) : Except CastErr Where :=
  (c.parseV v).map (fun p => ⟨c.name ++ " = " ++ p⟩)

/-- The `WhereIsIn` constructor of Where.py.  The source builds a generator
of parsed values and then interpolates the generator OBJECT into the
f-string: the emitted text is the column name, ` IN `, and the address-odo
dependent `repr` of the generator, abstracted here as `genRepr`.  The
generator is never consumed, so `column.parse` is never invoked on any of
the values. -/
def WhereIsIn (c : EasyColumn) (values : List Value) (genRepr : String) : Where :=
  let _ := values
  ⟨c.name ++ " IN " ++ genRepr⟩

/-- The `WhereIsBetween` constructor of Where.py.  The source builds the
tuple `(column.parse(a), column.parse(b))` and interpolates it into
`f'{column.name} = {values}'` (braces elided here): the emitted text is the
column name, ` = `, and the Python str of the tuple, whose elements appear
through `repr`. -/
def WhereIsBetween (c : EasyColumn) (a b : Value) : Except CastErr Where :=
  match c.parseV a, c.parseV b with
  | Except.ok pa, Except.ok pb =>
    Except.ok ⟨c.name ++ " = " ++ "(" ++ pyReprStr pa ++ ", " ++ pyReprStr pb ++ ")"⟩
  | Except.error e, _ => Except.error e
  | _, Except.error e => Except.error e

/-- Command-level errors: the cast errors propagated from parse calls, the
`ValueError` raised on length mismatch, and `DatabaseSafetyException`. -/
inductive PyErr where
  | valueError (msg : String)
  | typeError (msg : String)
  | safety (msg : String)
deriving DecidableEq, Repr

/-- Lift of a cast-layer error into the command layer. -/
def PyErr.ofCast : CastErr → PyErr
  | CastErr.valueError m => PyErr.valueError m
  | CastErr.typeError m => PyErr.typeError m

/-- Test for the safety error class. -/
def PyErr.isSafety : PyErr → Bool
  | PyErr.safety _ => true
  | _ => false

/-- The `remove_safety(confirm=...)` method of `EasyDatabase`: the new value
of the `_safe` flag is `not confirm`. -/
def removeSafety (confirm : Bool) : Bool := !confirm

/-- Shallow embedding of the `Update` command of Classes.py (table name,
assigned columns, values, optional where). -/
structure UpdateCmd where
  table : String
  columns : List EasyColumn
  values : List Value
  whereC : Option Where

/-- The SET clause of `Update.get_value`: comma-joined `name = parsed` pairs
over the zipped columns and values; a parse failure propagates. -/
def updateSetCommand (cols : List EasyColumn) (vals : List Value) :
    Except CastErr String :=
  ((cols.zip vals).mapM (fun (cv : EasyColumn × Value) => (cv.1.parseV cv.2).map
      (fun p => cv.1.name ++ " = " ++ p))).map (joinSep ", ")

/-- The `Update.get_value` method of Classes.py, line 610.  Because the
Python conditional expression binds looser than `+`, the returned value when
no where clause is present is the bare string `";"` (the UPDATE text is
computed and discarded); with a where clause the full statement is
returned. -/
def UpdateCmd.get_value (u : UpdateCmd) : Except PyErr String :=
  if u.columns.length ≠ u.values.length then
    Except.error (PyErr.valueError "Values length do not match with the columns")
  else
    match updateSetCommand u.columns u.values with
    | Except.error e => Except.error (PyErr.ofCast e)
    | Except.ok sc =>
      match u.whereC with
      | Option.some w =>
        Except.ok ("UPDATE " ++ u.table ++ " SET " ++ sc ++ " " ++ w.get_value ++ ";")
      | Option.none => Except.ok ";"

/-- The `Update.execute` method: raises `DatabaseSafetyException` when the
database is safe and no where clause was supplied, otherwise sends
`get_value()` to the database (the result is modelled as the SQL text
sent). -/
def UpdateCmd.execute (safe : Bool) (u : UpdateCmd) : Except PyErr String :=
  if safe ∧ u.whereC.isNone then
    Except.error (PyErr.safety "Update without any condition is prohibited")
  else u.get_value

/-- Shallow embedding of the `Delete` command of Classes.py. -/
structure DeleteCmd where
  table : String
  whereC : Option Where

/-- The `Delete.get_value` method, line 632 (here the conditional is
parenthesized in the source, so the DELETE text is always present). -/
def DeleteCmd.get_value (d : DeleteCmd) : String :=
  "DELETE FROM " ++ d.table ++
    (match d.whereC with
     | Option.some w => " " ++ w.get_value ++ ";"
     | Option.none => ";")

/-- The `Delete.execute` method: the same safety guard as Update, then the
statement text is sent. -/
def DeleteCmd.execute (safe : Bool) (d : DeleteCmd) : Except PyErr String :=
  if safe ∧ d.whereC.isNone then
    Except.error (PyErr.safety "Delete without any condition is prohibited")
  else Except.ok d.get_value

/-- Result shape of `Select.execute` (Classes.py lines 540-553): a Python
`None` (just-one mode with no rows), the `EmptySelectData` marker, a single
`SelectData`, or the list of them. -/
inductive SelectResult (α : Type) where
  | noneRes
  | empty
  | single (a : α)
  | many (l : List α)
deriving DecidableEq, Repr

/-- The result-shaping tail of `Select.execute`: with `_force_one` set the
first row or `None`; otherwise the empty marker for no rows, the sole
element for one row, and the list itself for more. -/
def shapeSelect {α : Type} (force_one : Bool) (rows : List α) : SelectResult α :=
  if force_one then
    match rows with
    | [] => SelectResult.noneRes
    | a :: _ => SelectResult.single a
  else
    match rows with
    | [] => SelectResult.empty
    | [a] => SelectResult.single a
    | l => SelectResult.many l

/-- The registry of module-level SQLType constants (the `type_dict` keys
together with `BOOL`). -/
def registry : List SQLType :=
  [INT64.base, INT32.base, INT24.base, INT16.base, INT8.base,
   BIT, BOOL, FLOAT, DOUBLE, DEC, STRING, CHAR]

/-- The registry constants other than `BOOL`. -/
def registryNonBool : List SQLType :=
  [INT64.base, INT32.base, INT24.base, INT16.base, INT8.base,
   BIT, FLOAT, DOUBLE, DEC, STRING, CHAR]

/-- One row of the `DESCRIBE <db>.<table>` result used by
`EasyDatabase.describe_table`: field name, type string, nullability flag,
key flag, and reported default. -/
structure DescribeRow where
  field : String
  typeStr : String
  nullStr : String
  keyStr : String
  dfltVal : Value

/-- The `describe_table` method of `EasyDatabase`: each row's type string is
reverse-looked-up (an unrecognized one raises `TypeError`), a `NO`
nullability adds the `NOT_NULL` tag, and an `EasyColumn` is built with the
reported default.  The `prim` list collected by the source is never used and
is not modelled. -/
def describe_table (rows : List DescribeRow) : Except PyErr (List EasyColumn) :=
  rows.mapM (fun r =>
    match string_to_type r.typeStr with
    | Except.error e => Except.error (PyErr.ofCast e)
    | Except.ok Option.none =>
      Except.error (PyErr.typeError
        ("Unable to recognize name \x22" ++ r.typeStr ++ "\x22 as a SQLType"))
    | Except.ok (Option.some t) =>
      Except.ok (mkEasyColumn r.field t
        (if r.nullStr == "NO" then [NOT_NULL] else []) r.dfltVal))

/-- Order-independent comparison of column lists under the Python set
comparison of `prepare` (membership by `EasyColumn.__eq__`). -/
def columnsSetEq (l1 l2 : List EasyColumn) : Bool :=
  l1.all (fun c => l2.any (fun d => c.pyEq d)) &&
  l2.all (fun c => l1.any (fun d => c.pyEq d))

/-- The schema-reconciliation core of `EasyTable.prepare` (Classes.py lines
398-445), abstracted over whether the table exists and over the DESCRIBE
rows of the live table.  Result: the table's final column list and the
`prepared` flag.  The CREATE TABLE DDL emission and charset reconciliation
are side effects not needed by the claims and are not modelled. -/
def tablePrepare (tableExists : Bool) (declared : List EasyColumn)
    (liveRows : List DescribeRow) : Except PyErr (List EasyColumn × Bool) :=
  if tableExists then
    match describe_table liveRows with
    | Except.error e => Except.error e
    | Except.ok cols =>
      if declared.isEmpty then Except.ok (cols, true)
      else if columnsSetEq declared cols then Except.ok (declared, true)
      else Except.error (PyErr.valueError "Existing table does not match with specified columns.")
  else
    if declared.isEmpty then
      Except.error (PyErr.valueError "No columns where specified and table does not exist")
    else Except.ok (declared, true)

/-! Helper lemmas shared by the claim theorems. -/

/-- Update's `get_value` can fail only with a length `ValueError` or a
propagated cast error, never with the safety error class. -/
lemma updateGetValue_no_safety (u : UpdateCmd) (e : PyErr)
    (h : u.get_value = Except.error e) : e.isSafety = false := by
  unfold UpdateCmd.get_value at h
  split at h
  · cases h
    rfl
  · rcases hsc : updateSetCommand u.columns u.values with e2 | sc
    · rw [hsc] at h
      cases h
      cases e2 <;> rfl
    · rw [hsc] at h
      rcases hw : u.whereC with _ | w <;> rw [hw] at h <;> cases h

/-- The guard pattern shared by `Update.execute` and `Delete.execute`
produces the safety error exactly when the safe flag is set and the where
clause is absent, provided the guarded body itself never produces one. -/
lemma execSafetyIff {α : Type} (safe : Bool) (wc : Option Where)
    (body : Except PyErr α) (msg : String)
    (hbody : ∀ m, body ≠ Except.error (PyErr.safety m)) :
    (∃ m, (if safe ∧ wc.isNone then Except.error (PyErr.safety msg) else body) =
      Except.error (PyErr.safety m)) ↔ (safe = true ∧ wc = Option.none) := by
  by_cases h : safe ∧ wc.isNone
  · rw [if_pos h]
    constructor
    · intro _
      exact ⟨h.1, Option.isNone_iff_eq_none.mp h.2⟩
    · intro _
      exact ⟨msg, rfl⟩
  · rw [if_neg h]
    constructor
    · intro ⟨m, hm⟩
      exact absurd hm (hbody m)
    · intro hc
      exact absurd ⟨hc.1, Option.isNone_iff_eq_none.mpr hc.2⟩ h

/-- A lookup over entries none of which lists the base name returns the
Python `None` result. -/
lemma lookupType_not_found (entries : List (SQLType × List String)) (base : String)
    (argsStr : Option String) (h : ∀ p ∈ entries, base ∉ p.2) :
    lookupType entries base argsStr = Except.ok Option.none := by
  induction entries with
  | nil => rfl
  | cons p rest ih =>
    have hb : p.2.contains base = false := by
      rcases hc : p.2.contains base with _ | _
      · rfl
      · exact absurd (List.mem_of_elem_eq_true hc) (h p (List.Mem.head _))
    unfold lookupType
    rw [hb]
    simp only [Bool.false_eq_true, if_false]
    exact ih (fun q hq => h q (List.Mem.tail _ hq))

/-! Claim theorems. -/

/-- C1: the claim states that for every integer SQLType of width N the
unsigned variant's cast accepts exactly `[0, 2^N - 1]` and the signed
variant `[-2^(N-1), 2^(N-1) - 1]`.  The code inverts the `unsigned` branch
of `_get_int_cast_` and uses `2^N` (inclusive) as the unsigned-branch upper
bound: the base (signed) TINYINT accepts 256 and rejects -1, and the
UNSIGNED BIGINT variant accepts -1 and rejects nothing below `-2^63`.  This
theorem evaluates the embedded code at those failing inputs. -/
theorem C1_int_cast_bounds_code_eval :
    INT8.base.cast (Value.int 256) = Except.ok (Value.int 256) ∧
    INT8.base.cast (Value.int (-1)) =
      Except.error (CastErr.valueError "can only accept between 0 and 256, but got -1") ∧
    INT64.unsignedVariant.map (fun u => u.cast (Value.int (-1))) =
      Option.some (Except.ok (Value.int (-1))) ∧
    INT64.unsignedVariant.map (fun u => u.cast (Value.int (2 ^ 63))) =
      Option.some (Except.error (CastErr.valueError
        ("can only accept between -9223372036854775808 and 9223372036854775807, " ++
         "but got 9223372036854775808"))) :=
  ⟨rfl, rfl, rfl, rfl⟩

/-- C2: after `remove_safety(confirm=True)` the safe flag is off and an
unconditioned Delete succeeds emitting `DELETE FROM <table>;` as claimed,
but the unconditioned Update, though it succeeds, emits the bare string
`;` — the conditional-expression precedence in `Update.get_value` drops the
`UPDATE ... SET ...` prefix, contradicting the claimed
`UPDATE <table> SET <pairs>;` text.  This theorem evaluates the embedded
code at that failing input. -/
theorem C2_remove_safety_code_eval :
    removeSafety true = false ∧
    DeleteCmd.execute (removeSafety true) { table := "MyTable", whereC := Option.none } =
      Except.ok "DELETE FROM MyTable;" ∧
    UpdateCmd.execute (removeSafety true)
      { table := "MyTable", columns := [mkEasyColumn "Balance" INT32.base [] Value.none],
        values := [Value.int 5], whereC := Option.none } = Except.ok ";" ∧
    (";" : String) ≠ "UPDATE MyTable SET Balance = 5;" :=
  ⟨rfl, rfl, rfl, by decide⟩

/-- C3: for every Update and Delete, `execute` raises the safety error if
and only if the database's safe flag is true and no Where was supplied, and
`Update.get_value` never produces the safety error (`Delete.get_value` is a
total string function in the embedding, so it cannot raise at all). -/
theorem C3_safety_guard (safe : Bool) (u : UpdateCmd) (d : DeleteCmd) :
    ((∃ m, u.execute safe = Except.error (PyErr.safety m)) ↔
      (safe = true ∧ u.whereC = Option.none)) ∧
    ((∃ m, d.execute safe = Except.error (PyErr.safety m)) ↔
      (safe = true ∧ d.whereC = Option.none)) ∧
    (∀ e, u.get_value = Except.error e → e.isSafety = false) := by
  refine ⟨?_, ?_, fun e h => updateGetValue_no_safety u e h⟩
  · exact execSafetyIff safe u.whereC u.get_value _
      (fun m hm => by
        have := updateGetValue_no_safety u (PyErr.safety m) hm
        simp [PyErr.isSafety] at this)
  · exact execSafetyIff safe d.whereC (Except.ok d.get_value) _ (fun m hm => by cases hm)

/-- Witness for C3 at concrete inputs: applying the theorem with the safe
flag set and no Where on each command discharges its hypotheses and
produces the safety errors. -/
theorem C3_safety_guard_witness :
    (∃ m, UpdateCmd.execute true
      { table := "T", columns := [], values := [], whereC := Option.none } =
        Except.error (PyErr.safety m)) ∧
    (∃ m, DeleteCmd.execute true { table := "T", whereC := Option.none } =
        Except.error (PyErr.safety m)) :=
  ⟨(C3_safety_guard true
      { table := "T", columns := [], values := [], whereC := Option.none }
      { table := "T", whereC := Option.none }).1.mpr ⟨rfl, rfl⟩,
   (C3_safety_guard true
      { table := "T", columns := [], values := [], whereC := Option.none }
      { table := "T", whereC := Option.none }).2.1.mpr ⟨rfl, rfl⟩⟩

/-- C4: the claim states that every registry type, BOOL included, has
`parse(None) = null`.  `BOOL`'s parser is `'1' if value else '0'`, and the
cast passes `None` through, so `BOOL.parse(None)` renders `0`, not the SQL
NULL literal. -/
theorem C4_parse_null_counterexample :
    BOOL.parse Value.none = Except.ok "0" ∧ ("0" : String) ≠ "null" :=
  ⟨rfl, by decide⟩

/-- C4 amended: for every registry SQLType, `cast(None)` returns the
canonical null (the cast body is skipped); `parse(None)` renders the SQL
`null` literal for every registry type except `BOOL`, whose parser renders
`0` for a null input. -/
theorem C4_null_handling_amended :
    (∀ t ∈ registry, t.cast Value.none = Except.ok Value.none) ∧
    (∀ t ∈ registryNonBool, t.parse Value.none = Except.ok "null") ∧
    BOOL.parse Value.none = Except.ok "0" := by
  refine ⟨?_, ?_, rfl⟩
  · intro t ht
    simp only [registry, List.mem_cons, List.not_mem_nil, or_false] at ht
    rcases ht with rfl | rfl | rfl | rfl | rfl | rfl | rfl | rfl | rfl | rfl | rfl | rfl <;> rfl
  · intro t ht
    simp only [registryNonBool, List.mem_cons, List.not_mem_nil, or_false] at ht
    rcases ht with rfl | rfl | rfl | rfl | rfl | rfl | rfl | rfl | rfl | rfl | rfl <;> rfl

/-- Witness for C4 amended: applying the theorem to `STRING` (a member of
both lists) evaluates cast and parse on the null input. -/
theorem C4_null_handling_witness :
    STRING.cast Value.none = Except.ok Value.none ∧
    STRING.parse Value.none = Except.ok "null" :=
  ⟨C4_null_handling_amended.1 STRING (by simp [registry]),
   C4_null_handling_amended.2.1 STRING (by simp [registryNonBool])⟩

/-- C5: result shaping of `Select.execute`: zero rows give the explicit
empty marker (distinct from the Python-None result) unless just-one mode is
set, in which case zero rows give the None result; one row gives the single
element; two or more rows give the ordered list itself. -/
theorem C5_select_result_shaping {α : Type} :
    (shapeSelect false ([] : List α) = SelectResult.empty) ∧
    (shapeSelect true ([] : List α) = SelectResult.noneRes) ∧
    (∀ a : α, shapeSelect false [a] = SelectResult.single a) ∧
    (∀ (a b : α) (l : List α),
      shapeSelect false (a :: b :: l) = SelectResult.many (a :: b :: l)) ∧
    ((SelectResult.empty : SelectResult α) ≠ SelectResult.noneRes) :=
  ⟨rfl, rfl, fun _ => rfl, fun _ _ _ => rfl, fun h => SelectResult.noConfusion h⟩

/-- C6: the claim states that `WhereIsIn` renders each value of the
collection individually parsed (an SQL value list) and `WhereIsBetween`
renders a SQL BETWEEN condition on the two parsed bounds.  The code
interpolates the generator object itself into the IN fragment (so the
emitted text is independent of the values and no value is parsed into it),
and renders the BETWEEN pair as `column = (tuple repr)` with no BETWEEN
keyword.  This theorem evaluates the embedded code at those failing
inputs. -/
theorem C6_in_between_code_eval :
    (∀ (vs1 vs2 : List Value) (r : String),
      WhereIsIn (mkEasyColumn "Balance" INT32.base [] Value.none) vs1 r =
        WhereIsIn (mkEasyColumn "Balance" INT32.base [] Value.none) vs2 r) ∧
    WhereIsIn (mkEasyColumn "Balance" INT32.base [] Value.none)
        [Value.int 1, Value.int 2] "<generator object WhereIsIn>" =
      ⟨"Balance IN <generator object WhereIsIn>"⟩ ∧
    WhereIsBetween (mkEasyColumn "Balance" INT32.base [] Value.none)
        (Value.int 1) (Value.int 5) =
      Except.ok ⟨"Balance = (\x271\x27, \x275\x27)"⟩ ∧
    ("Balance = (\x271\x27, \x275\x27)" : String) ≠ "Balance BETWEEN 1 AND 5" :=
  ⟨fun _ _ _ => rfl, rfl, rfl, by decide⟩

/-- C7: `AND` and `OR` wrap the two operands' texts in one outer parenthesis
pair, `NOT` prefixes `NOT `, and the operands are unchanged (a `Where` is
immutable data in the embedding: the combinators construct new values from
the operands' texts). -/
theorem C7_where_combinators (a b : Where) :
    (a.AND b).value = "(" ++ a.value ++ " AND " ++ b.value ++ ")" ∧
    (a.OR b).value = "(" ++ a.value ++ " OR " ++ b.value ++ ")" ∧
    a.NOT.value = "NOT " ++ a.value :=
  ⟨rfl, rfl, rfl⟩

/-- C8: `string_to_type` maps each known database-reported type string to
the matching registry SQLType — reconstructing the parameters for the
modifiable types — and every string whose (lowercased, argument-stripped)
base name has no registered alias yields the dedicated `None` failure value
rather than an exception. -/
theorem C8_string_to_type :
    (string_to_type "bigint" = Except.ok (Option.some INT64.base) ∧
     string_to_type "int" = Except.ok (Option.some INT32.base) ∧
     string_to_type "integer" = Except.ok (Option.some INT32.base) ∧
     string_to_type "mediumint" = Except.ok (Option.some INT24.base) ∧
     string_to_type "smallint" = Except.ok (Option.some INT16.base) ∧
     string_to_type "tinyint" = Except.ok (Option.some INT8.base) ∧
     string_to_type "bit" = Except.ok (Option.some BIT) ∧
     string_to_type "bool" = Except.ok (Option.some BOOL) ∧
     string_to_type "boolean" = Except.ok (Option.some BOOL) ∧
     string_to_type "float" = Except.ok (Option.some FLOAT) ∧
     string_to_type "double" = Except.ok (Option.some DOUBLE) ∧
     string_to_type "decimal" = Except.ok (Option.some DEC) ∧
     string_to_type "dec" = Except.ok (Option.some DEC) ∧
     string_to_type "varchar" = Except.ok (Option.some STRING) ∧
     string_to_type "char" = Except.ok (Option.some CHAR) ∧
     string_to_type "varchar(255)" = Except.ok (Option.some (STRING.withArgs [255])) ∧
     string_to_type "varchar(100)" = Except.ok (Option.some (STRING.withArgs [100])) ∧
     string_to_type "bit(3)" = Except.ok (Option.some (BIT.withArgs [3])) ∧
     string_to_type "decimal(10,2)" = Except.ok (Option.some (DEC.withArgs [10, 2])) ∧
     string_to_type "char(16)" = Except.ok (Option.some (CHAR.withArgs [16]))) ∧
    (∀ s : String, (stripTypeArgs s).1 ∉ allAliases →
      string_to_type s = Except.ok Option.none) := by
  constructor
  · exact ⟨rfl, rfl, rfl, rfl, rfl, rfl, rfl, rfl, rfl, rfl, rfl, rfl, rfl, rfl, rfl,
      rfl, rfl, rfl, rfl, rfl⟩
  · intro s h
    apply lookupType_not_found
    intro p hp hmem
    apply h
    simp only [typeDict, List.mem_cons, List.not_mem_nil, or_false] at hp
    rcases hp with rfl | rfl | rfl | rfl | rfl | rfl | rfl | rfl | rfl | rfl | rfl <;>
      simp only [List.mem_cons, List.not_mem_nil, or_false] at hmem <;>
      simp only [allAliases, List.mem_cons, List.not_mem_nil, or_false] <;>
      tauto

/-- Witness for C8 at a concrete unknown name. -/
theorem C8_string_to_type_witness :
    string_to_type "geometry" = Except.ok Option.none :=
  C8_string_to_type.2 "geometry" (by decide)

/-- C9: the claim states that an explicitly supplied default always becomes
the column's default.  The constructor tests the supplied default for
truthiness, so a falsy explicit default (here the empty string, on a column
without NOT_NULL) is discarded and the stored default is null instead. -/
theorem C9_default_counterexample :
    (mkEasyColumn "Name" STRING [] (Value.str "")).dflt = Value.none ∧
    Value.none ≠ Value.str "" :=
  ⟨rfl, by decide⟩

/-- C9 amended: a truthy supplied default becomes the column's default; a
falsy or absent one falls back to the SQLType's default exactly when
NOT_NULL is among the tags, and to null otherwise. -/
theorem C9_default_amended (name : String) (t : SQLType) (tags : List SQLConstraints)
    (d : Value) :
    (pyTruthy d = true → (mkEasyColumn name t tags d).dflt = d) ∧
    (pyTruthy d = false → tags.contains NOT_NULL = true →
      (mkEasyColumn name t tags d).dflt = t.dflt) ∧
    (pyTruthy d = false → tags.contains NOT_NULL = false →
      (mkEasyColumn name t tags d).dflt = Value.none) := by
  refine ⟨fun h => ?_, fun h hn => ?_, fun h hn => ?_⟩ <;> simp_all [mkEasyColumn]

/-- Witness for C9 amended: a falsy explicit default (integer 0) on a
NOT_NULL column of type INT falls back to the type's default value 0. -/
theorem C9_default_witness :
    (mkEasyColumn "Balance" INT32.base [NOT_NULL] (Value.int 0)).dflt = Value.int 0 :=
  (C9_default_amended "Balance" INT32.base [NOT_NULL] (Value.int 0)).2.1 rfl rfl

/-- C10: when the table exists in the database and the declared column list
is empty, `prepare` succeeds, adopts the columns reconstructed by
`describe_table` from the live schema, and marks the table prepared. -/
theorem C10_prepare_adopts (liveRows : List DescribeRow) (cols : List EasyColumn)
    (h : describe_table liveRows = Except.ok cols) :
    tablePrepare true [] liveRows = Except.ok (cols, true) := by
  simp [tablePrepare, h]

/-- Witness for C10 at a concrete live table: one BIGINT NOT NULL column
named ID is reconstructed and adopted. -/
theorem C10_prepare_witness :
    tablePrepare true [] [⟨"ID", "bigint", "NO", "PRI", Value.none⟩] =
      Except.ok ([mkEasyColumn "ID" INT64.base [NOT_NULL] Value.none], true) :=
  C10_prepare_adopts [⟨"ID", "bigint", "NO", "PRI", Value.none⟩]
    [mkEasyColumn "ID" INT64.base [NOT_NULL] Value.none] rfl

end EasySQL
